import Mathlib

/-!
Verification development for the decentralized identity and credential vault
client (React front end: IdentityTab, CredentialTab, VerifyTab, plus an
alternate CredentialTab/VerifyTab pair shipped in the same files).

The embedding models the credential lifecycle exactly as the components
implement it:

* `handleRequestVC_A` — CredentialTab.jsx (the "guaranteed verification"
  variant): builds the VC locally, attaches the constant
  `createAlwaysValidSignature`, encrypts with the raw full private key,
  draws a random mock CID and persists a record that also caches the
  plaintext (`vcData`).
* `handleRequestVC_B` — the alternate CredentialTab (part_001): requests the
  VC from the issuer backend, encrypts with the first 32 characters of the
  private key, uploads to IPFS and persists a record.
* `handleVerifyA` — VerifyTab.jsx (debug variant): resolves ciphertext from
  the local credential cache first, else IPFS; decrypts via
  `decryptWithMultipleMethods`; on total decryption failure falls back to the
  cached plaintext; the signature-check step is hard-coded to report success.
* `handleVerifyB` — the alternate VerifyTab: resolves from IPFS first,
  decrypts with a single UTF-8 attempt, and sends the parsed credential and
  stored signature to the backend verifier.

CryptoJS.AES (passphrase mode) is external library code; it is modelled as a
keyed byte-stream bijection `aesEncrypt`/`aesDecrypt` that preserves the
properties the claims depend on: encryption is deterministic in
(plaintext, key), decryption with the same key inverts it, decryption with a
wrong key yields garbage bytes rather than an error (the scheme carries no
authentication tag), and text decoding is the only failure detector.
JSON serialization of the credential object is modelled by the injective
field encoding `stringifyVC` with `parseVC` recognizing exactly its images;
localStorage is modelled as a record of the two keys the components use.
-/

namespace Vault

/-! ## Bytes and text encodings -/

/-- Byte sequences (entries are meant to lie below 256). -/
abbrev Bytes := List Nat

/-- The bytes of a string (code points; the sources only handle ASCII data). -/
def strBytes (s : String) : Bytes := s.data.map Char.toNat

/-- Bytes back to a string (Latin1-style: every byte maps to a character).
Models `CryptoJS.enc.Latin1.stringify`, which never fails. -/
def bytesToStr (b : Bytes) : String := String.mk (b.map Char.ofNat)

/-- Model of `CryptoJS.enc.Utf8.stringify`: succeeds on ASCII byte
sequences and throws (`Malformed UTF-8 data`) otherwise; the model returns
`none` where the library throws. -/
def utf8Decode (b : Bytes) : Option String :=
  if b.all (fun x => x < 128) then some (bytesToStr b) else none

/-- Lower-case hex digit. -/
def hexDigit (n : Nat) : Char :=
  "0123456789abcdef".data.getD (n % 16) '0'

/-- Hex rendering of a byte sequence (`CryptoJS.enc.Hex.stringify`). -/
def hexOfBytes (b : Bytes) : String :=
  String.mk (b.foldr (fun x acc => hexDigit (x / 16) :: hexDigit x :: acc) [])

/-! ## The cipher (model of CryptoJS.AES in passphrase mode) -/

/-- Key stream derived from the passphrase and the byte position. Stands in
for the AES-CBC keystream obtained from EVP-style key derivation; the
essential properties kept are determinism and boundedness below 256. -/
def keyStream (key : String) (i : Nat) : Nat :=
  ((strBytes key).foldl (fun a b => (a * 131 + b + 1) % 256) ((i * 37 + 11) % 256)) % 256

def aesEncryptAux (key : String) : Nat → Bytes → Bytes
  | _, [] => []
  | i, b :: r => (b + keyStream key i) % 256 :: aesEncryptAux key (i + 1) r

/-- Model of `CryptoJS.AES.encrypt(plain, key).toString()`: a keyed byte-wise
bijection. No authentication tag is attached — exactly as in the source,
where the ciphertext is the raw OpenSSL-compatible blob. -/
def aesEncrypt (p : Bytes) (key : String) : Bytes := aesEncryptAux key 0 p

def aesDecryptAux (key : String) : Nat → Bytes → Bytes
  | _, [] => []
  | i, b :: r => (b + (256 - keyStream key i)) % 256 :: aesDecryptAux key (i + 1) r

/-- Model of `CryptoJS.AES.decrypt(cipher, key)`: always returns a byte
sequence (the library returns a WordArray whatever the key was; with a wrong
key the bytes are garbage — there is no integrity check that could fail). -/
def aesDecrypt (c : Bytes) (key : String) : Bytes := aesDecryptAux key 0 c

/-! ## Data model -/

/-- The identity record stored under the `userIdentity` localStorage key
(IdentityTab `handleCreateDID`). -/
structure Identity where
  did : String
  publicKey : String
  privateKey : String
  address : String
  createdAt : String
deriving DecidableEq

/-- The degree claims entered in the CredentialTab form. -/
structure DegreeData where
  type : String
  name : String
  university : String
  graduationYear : Nat
deriving DecidableEq

/-- The verifiable-credential document built at issuance:
`issuer`, `credentialSubject.id`, `credentialSubject.degree`,
`issuanceDate`, `type`. -/
structure VC where
  issuer : String
  subjectId : String
  degree : DegreeData
  issuanceDate : String
  type : List String
deriving DecidableEq

/-- The credential record persisted under `userCredentials`. The
presentational fields (`isSimulated`, `status`, `ipfsGatewayUrl`,
`encrypted`) are omitted; `encryptedData` and `vcData` are `none` for
records written by the alternate CredentialTab (part_001), which stores
neither. -/
structure CredentialRecord where
  id : String
  did : String
  issuer : String
  cid : String
  signature : String
  degreeData : DegreeData
  issuanceDate : String
  encryptedData : Option Bytes
  vcData : Option VC
deriving DecidableEq

/-- The browser localStorage surface used by the components: exactly the two
records `userIdentity` and `userCredentials` (stored as JSON strings in the
source; modelled structurally). -/
structure LocalStorage where
  userIdentity : Option Identity
  userCredentials : Option (List CredentialRecord)
deriving DecidableEq

/-! ## Credential document serialization

`JSON.stringify` on the VC object is modelled as an injective field encoding
(field values in the object's key order, separated by byte 31, with the
`type` array as the trailing fields); `parseVC` models the
`JSON.parse`-plus-shape-check step and recognizes exactly the images of
`stringifyVC` on separator-free fields. -/

/-- Field separator byte of the serialization model. -/
def SEP : Nat := 31

/-- Serialization of the credential document used as the encryption
plaintext (`JSON.stringify(vc)` in both CredentialTab variants). -/
def stringifyVC (vc : VC) : Bytes :=
  strBytes vc.issuer
    ++ SEP :: strBytes vc.subjectId
    ++ SEP :: strBytes vc.degree.type
    ++ SEP :: strBytes vc.degree.name
    ++ SEP :: strBytes vc.degree.university
    ++ SEP :: strBytes (Nat.repr vc.degree.graduationYear)
    ++ SEP :: strBytes vc.issuanceDate
    ++ vc.type.flatMap (fun t => SEP :: strBytes t)

/-- Split a byte sequence at the separator. -/
def splitSep : Bytes → List Bytes
  | [] => [[]]
  | b :: r =>
    if b = SEP then [] :: splitSep r
    else
      match splitSep r with
      | [] => [[b]]
      | g :: gs => (b :: g) :: gs

/-- Decimal digits back to a number (for the `graduationYear` field). -/
def digitsToNat : Bytes → Option Nat
  | [] => none
  | b =>
    if b.all (fun x => 48 ≤ x && x ≤ 57) then
      some (b.foldl (fun a x => a * 10 + (x - 48)) 0)
    else none

/-- Model of `JSON.parse` plus the component's shape expectations on the
decrypted text (VerifyTab reads `issuer`, `credentialSubject.id`,
`credentialSubject.degree`, `issuanceDate`, `type`). Returns `none` on text
that is not a serialized credential. -/
def parseVC (s : String) : Option VC :=
  match splitSep (strBytes s) with
  | issuer :: subj :: dtype :: dname :: univ :: year :: date :: types =>
    match digitsToNat year with
    | some y =>
      some ⟨bytesToStr issuer, bytesToStr subj,
            ⟨bytesToStr dtype, bytesToStr dname, bytesToStr univ, y⟩,
            bytesToStr date, types.map bytesToStr⟩
    | none => none
  | _ => none

/-! ## Cipher keys used by the four component variants -/

/-- JavaScript `s.slice(0, 32)`. -/
def jsSlice32 (s : String) : String := String.mk (s.data.take 32)

/-- CredentialTab.jsx line 108: `const encryptionKey = identity.privateKey;`
— the raw private key string is used directly as the cipher key. -/
def issuanceKeyA (identity : Identity) : String := identity.privateKey

/-- part_001 line 107:
`const encryptionKey = identity.privateKey.slice(0, 32);`. -/
def issuanceKeyB (identity : Identity) : String := jsSlice32 identity.privateKey

/-- VerifyTab.jsx (debug variant) line 144:
`const decryptionKey = identity.privateKey;`. -/
def verificationKeyA (identity : Identity) : String := identity.privateKey

/-- VerifyTab.jsx (alternate variant) line 526:
`const decryptionKey = identity.privateKey.slice(0, 32);`. -/
def verificationKeyB (identity : Identity) : String := jsSlice32 identity.privateKey

/-! ## Issuance (CredentialTab variants) -/

/-- CredentialTab.jsx lines 56-59: the constant string returned by
`createAlwaysValidSignature` ("This signature format will always pass
verification"). -/
def createAlwaysValidSignature : String :=
  "0x1234567890abcdef1234567890abcdef1234567890abcdef1234567890abcdef1234567890abcdef1234567890abcdef1234567890abcdef1234567890abcdef"

/-- CredentialTab.jsx line 47: the base58-style alphabet of the mock CID. -/
def cidChars : String :=
  "123456789ABCDEFGHJKLMNPQRSTUVWXYZabcdefghijkmnopqrstuvwxyz"

/-- CredentialTab.jsx lines 46-53: `generateMockCID` draws 42 characters
from `cidChars` using `Math.random()`; the random source is modelled as a
stream of naturals indexed by draw position. The envelope bytes are not an
input: the mock CID does not depend on them. -/
def generateMockCID (rand : Nat → Nat) : String :=
  "Qm" ++ String.mk ((List.range 42).map (fun i => cidChars.data.getD (rand i % 58) 'Q'))

/-- Outcome of an issuance run; each failure constructor names the step that
failed, mirroring the distinct error messages set by the source. -/
inductive IssueOutcome where
  | noIdentity
  | issuerFailed
  | ipfsFailed
  | issued (r : CredentialRecord)
deriving DecidableEq

def isIssued : IssueOutcome → Bool
  | .issued _ => true
  | _ => false

def issuedRecord : LocalStorage × IssueOutcome → Option CredentialRecord
  | (_, .issued r) => some r
  | _ => none

/-- CredentialTab.jsx `handleRequestVC` (lines 61-161): build the VC locally
with the fixed issuer DID, attach `createAlwaysValidSignature`, encrypt the
serialized VC under the raw private key, draw a mock CID, and persist a
record that caches both the ciphertext and the plaintext (`vcData`). The
single `localStorage.setItem` happens after every prior step; any earlier
failure returns without touching the store. `now` is the issuance timestamp
and `recId` the generated record id. -/
def handleRequestVC_A (store : LocalStorage) (rand : Nat → Nat) (now recId : String)
    (degree : DegreeData) : LocalStorage × IssueOutcome :=
  match store.userIdentity with
  | none => (store, .noIdentity)
  | some identity =>
    let vc : VC :=
      ⟨"did:ethr:0x123456789abcdef", identity.did, degree, now,
       ["VerifiableCredential", "UniversityDegreeCredential"]⟩
    let encryptedVC := aesEncrypt (stringifyVC vc) (issuanceKeyA identity)
    let cid := generateMockCID rand
    let record : CredentialRecord :=
      ⟨recId, identity.did, vc.issuer, cid, createAlwaysValidSignature, degree, now,
       some encryptedVC, some vc⟩
    ({ store with userCredentials := some (record :: store.userCredentials.getD []) },
     .issued record)

/-- part_001 `handleRequestVC` (lines 69-167): request the signed VC from
the issuer backend (`issuer` is the backend's response, `none` covering both
`success: false` and a thrown request error), encrypt the serialized VC
under the first 32 characters of the private key, upload the ciphertext to
IPFS (`put`, `none` on failure), and only then persist the record. Every
failure path returns before `localStorage.setItem` runs. -/
def handleRequestVC_B (store : LocalStorage) (issuer : Option (VC × String))
    (put : Bytes → Option String) (recId : String) : LocalStorage × IssueOutcome :=
  match store.userIdentity with
  | none => (store, .noIdentity)
  | some identity =>
    match issuer with
    | none => (store, .issuerFailed)
    | some (vc, signature) =>
      let encryptedVC := aesEncrypt (stringifyVC vc) (issuanceKeyB identity)
      match put encryptedVC with
      | none => (store, .ipfsFailed)
      | some cid =>
        let record : CredentialRecord :=
          ⟨recId, identity.did, vc.issuer, cid, signature, vc.degree, vc.issuanceDate,
           none, none⟩
        ({ store with userCredentials := some (record :: store.userCredentials.getD []) },
         .issued record)

/-! ## Verification (VerifyTab variants) -/

/-- The verification result object assembled by both VerifyTab variants
(`isValid`, `verified`, `issuer`, `subject`); `usedStoredFallback` records
whether the debug variant produced it from the cached plaintext after a
decryption failure (its distinct "using stored data" message). -/
structure VerificationResult where
  isValid : Bool
  verified : Bool
  issuer : String
  subject : String
  usedStoredFallback : Bool
deriving DecidableEq

/-- Failure terminations of a verification run, one per distinct early
return in the sources. -/
inductive FailReason where
  | noCid
  | noIdentity
  | notFound
  | noData
  | ipfsUnavailable
  | retrieveError
  | credNotFound
  | decryptFailed
  | parseFailed
  | noLocalCreds
deriving DecidableEq

inductive VerifyOutcome where
  | failure (r : FailReason)
  | result (r : VerificationResult)
deriving DecidableEq

/-- VerifyTab.jsx (debug) lines 38-120, `decryptWithMultipleMethods`: AES
decryption followed by UTF-8, Latin1 and Hex decoding attempts. In CryptoJS
a malformed UTF-8 decode throws, which lands in the function's outer catch
and returns the failure marker — so the Latin1/Hex branches only run when
UTF-8 decoding returns an empty string without throwing (empty plaintext),
in which case they are empty too; methods 2 and 3 re-decrypt the same data
and fail the same way. An empty decoded string is falsy in JavaScript and
treated as failure throughout. -/
def decryptWithMultipleMethods (encryptedData : Bytes) (key : String) : Option String :=
  let bytes := aesDecrypt encryptedData key
  match utf8Decode bytes with
  | none => none
  | some t =>
    if t.length ≠ 0 then some t
    else
      let l := bytesToStr bytes
      if l.length ≠ 0 then some l
      else
        let h := hexOfBytes bytes
        if h.length ≠ 0 then some h else none

/-- VerifyTab.jsx (alternate) lines 576-581: a single AES decrypt with
UTF-8 decoding (a malformed decode throws into the surrounding catch), an
empty result being treated as `Decryption failed`. -/
def decryptFlowB (encryptedVC : Bytes) (key : String) : Option String :=
  match utf8Decode (aesDecrypt encryptedVC key) with
  | none => none
  | some t => if t.length = 0 then none else some t

/-- The local-cache lookup both VerifyTab variants perform:
`JSON.parse(localStorage.getItem('userCredentials')).find(c => c.cid === cid)`. -/
def foundCredOf (store : LocalStorage) (c : String) : Option CredentialRecord :=
  (store.userCredentials.getD []).find? (fun r => r.cid == c)

/-- The locally cached ciphertext for a CID, if any; an empty string stored
in `encryptedData` is falsy in the source and counts as absent. -/
def cachedCipher (store : LocalStorage) (c : String) : Option Bytes :=
  match foundCredOf store c with
  | some r =>
    match r.encryptedData with
    | some d => if d = [] then none else some d
    | none => none
  | none => none

/-- VerifyTab.jsx (debug) lines 216-312: the steps after ciphertext
resolution. On decryption failure the component falls back to the cached
plaintext `vcData` when present and reports a successful verification
("using stored data"); after a successful decrypt-and-parse the
signature-check step is hard-coded ("Always return successful verification
for demo") to `isValid: true, verified: true` — the stored signature is
never read. -/
def afterResolve (store : LocalStorage) (c key : String) (encryptedVC : Bytes) :
    VerifyOutcome :=
  match decryptWithMultipleMethods encryptedVC key with
  | none =>
    match (foundCredOf store c).bind (fun r => r.vcData) with
    | some vc => .result ⟨true, true, vc.issuer, vc.subjectId, true⟩
    | none => .failure .decryptFailed
  | some text =>
    match parseVC text with
    | none => .failure .parseFailed
    | some vc => .result ⟨true, true, vc.issuer, vc.subjectId, false⟩

/-- VerifyTab.jsx (debug) `handleVerify` (lines 122-320). `c` is the
trimmed CID input and `ipfs` the content-store retrieval
(`POST /retrieve-from-ipfs`; `none` covers both a thrown request and
`success: false`). Resolution prefers the locally cached ciphertext; only
otherwise is the content store consulted, and if it also fails the run
stops with the "not found in IPFS or local storage" error before any
decrypt, parse or signature step. -/
def handleVerifyA (store : LocalStorage) (ipfs : String → Option Bytes) (c : String) :
    VerifyOutcome :=
  if c = "" then .failure .noCid
  else
    match store.userIdentity with
    | none => .failure .noIdentity
    | some identity =>
      match cachedCipher store c with
      | some encryptedVC => afterResolve store c (verificationKeyA identity) encryptedVC
      | none =>
        match ipfs c with
        | none => .failure .notFound
        | some d =>
          if d = [] then .failure .noData
          else afterResolve store c (verificationKeyA identity) d

/-- VerifyTab.jsx (alternate) `handleVerify` (lines 506-634). `ipfs c` is
the retrieval response: `none` for a thrown request ("Could not retrieve
from IPFS"), `some none` for `success: false`, `some (some d)` for data.
This variant queries the content store first; on `success: false` it checks
the local credential list only to decide which error to show — a locally
found record sets the ciphertext to null ("Skipping IPFS retrieval"), which
then fails as "No encrypted credential data found". After a successful
decrypt-and-parse the parsed document and the locally stored signature are
sent to the backend verifier (`backend`). -/
def handleVerifyB (store : LocalStorage) (ipfs : String → Option (Option Bytes))
    (backend : VC → String → VerificationResult) (c : String) : VerifyOutcome :=
  if c = "" then .failure .noCid
  else
    match store.userIdentity with
    | none => .failure .noIdentity
    | some identity =>
      match ipfs c with
      | none => .failure .ipfsUnavailable
      | some none =>
        match store.userCredentials with
        | none => .failure .retrieveError
        | some creds =>
          match creds.find? (fun r => r.cid == c) with
          | some _ => .failure .noData
          | none => .failure .credNotFound
      | some (some d) =>
        if d = [] then .failure .noData
        else
          match decryptFlowB d (verificationKeyB identity) with
          | none => .failure .decryptFailed
          | some text =>
            match parseVC text with
            | none => .failure .parseFailed
            | some vc =>
              match store.userCredentials with
              | none => .failure .noLocalCreds
              | some creds =>
                match creds.find? (fun r => r.cid == c) with
                | none => .failure .credNotFound
                | some foundCred => .result (backend vc foundCred.signature)

/-! ## Outbound request payloads

The string fields of every network request body the components send,
mirroring the axios call sites; the ciphertext (a byte payload) is carried
by `uploadCiphertext`. -/

/-- part_001 lines 86-90, `POST /issue-vc`:
`holderDID`, `holderPublicKey`, `degree`. -/
def issueVcPayload (identity : Identity) (degree : DegreeData) : List String :=
  [identity.did, identity.publicKey, degree.type, degree.name, degree.university,
   Nat.repr degree.graduationYear]

/-- part_001 lines 115-123, `POST /upload-to-ipfs` metadata:
`holderDID`, `issuerDID`, `issuanceDate`, `credentialType`. -/
def uploadMetadataPayload (identity : Identity) (vc : VC) : List String :=
  [identity.did, vc.issuer, vc.issuanceDate] ++ vc.type

/-- part_001 line 115: the `encryptedVC` field of the upload body — the
serialized VC encrypted under the key derived by `issuanceKeyB`. -/
def uploadCiphertext (identity : Identity) (vc : VC) : Bytes :=
  aesEncrypt (stringifyVC vc) (issuanceKeyB identity)

/-- Both VerifyTab variants, `POST /retrieve-from-ipfs`: the CID only. -/
def retrievePayload (c : String) : List String := [c]

/-- VerifyTab.jsx (alternate) lines 606-609, `POST /verify-vc`:
`credentialPayload` (the parsed VC) and the stored `signature`. -/
def verifyVcPayload (vc : VC) (signature : String) : List String :=
  [vc.issuer, vc.subjectId, vc.degree.type, vc.degree.name, vc.degree.university,
   Nat.repr vc.degree.graduationYear, vc.issuanceDate, signature] ++ vc.type

/-! ## Identity derivation

Modelled from the spec: the keypair/DID generation is implemented by the
backend (`POST /api/create-did`), which is not part of src — IdentityTab
only stores the response verbatim. Spec section 4.1 specifies `did` as a
stable method-prefixed encoding of the public key and `address` as a
truncated hash of the public key, both recomputable from `publicKey` alone. -/

/-- Modelled from the spec: a compact keyed fold standing in for the hash
from which the address is truncated. -/
def miniHash (b : Bytes) (i : Nat) : Nat :=
  (b.foldl (fun a x => (a * 131 + x + i * 17 + 1) % 251) (i + 7)) % 256

/-- Modelled from the spec: `did` — a stable hex encoding of the public key
behind the `did:ethr` method tag. -/
def deriveDid (publicKey : String) : String :=
  "did:ethr:0x" ++ hexOfBytes (strBytes publicKey)

/-- Modelled from the spec: `address` — a truncated (20-byte) hash of the
public key. -/
def deriveAddress (publicKey : String) : String :=
  "0x" ++ hexOfBytes ((List.range 20).map (fun i => miniHash (strBytes publicKey) i))

/-- IdentityTab `handleCreateDID` (lines 160-192): the identity assembled
from the generation response plus the call-time `createdAt` timestamp, with
`did` and `address` given by the spec-modelled derivations from the public
key. -/
def mkIdentity (publicKey privateKey createdAt : String) : Identity :=
  ⟨deriveDid publicKey, publicKey, privateKey, deriveAddress publicKey, createdAt⟩

/-! ## Local store operations -/

/-- CredentialTab.jsx lines 192-196, `handleClearCredentials`:
`localStorage.removeItem('userCredentials')` only. -/
def handleClearCredentials (s : LocalStorage) : LocalStorage :=
  { s with userCredentials := none }

/-- IdentityTab lines 200-206, `handleClearIdentity`:
`localStorage.removeItem('userIdentity')` behind a confirm dialog; the
unconfirmed branch leaves the store untouched. -/
def handleClearIdentity (confirmed : Bool) (s : LocalStorage) : LocalStorage :=
  if confirmed then { s with userIdentity := none } else s

/-- IdentityTab `handleCreateDID` store effect:
`localStorage.setItem('userIdentity', ...)` only. -/
def storeNewIdentity (s : LocalStorage) (i : Identity) : LocalStorage :=
  { s with userIdentity := some i }

/-! ## Concrete scenario data for the closed theorems -/

/-- A holder identity as produced by the backend and stored by IdentityTab.
The private key is short to keep kernel evaluation cheap; the cipher model
accepts any key length, as does the source. -/
def idA : Identity :=
  ⟨"did:ethr:0xholder", "0xpubA", "0xkey12345", "0xaddrA", "2025-01-01"⟩

/-- A second holder whose private key differs from `idA`'s (spec scenario B:
verifying with a different holder's key). -/
def idB : Identity :=
  ⟨"did:ethr:0xother", "0xpubB", "0xother9876", "0xaddrB", "2025-01-01"⟩

/-- `idA` with only the private key changed (for the payload
noninterference witness). -/
def idAvar : Identity :=
  ⟨"did:ethr:0xholder", "0xpubA", "0xchangedkey", "0xaddrA", "2025-01-01"⟩

/-- A 66-character private key of the shape the backend returns
(`0x` + 64 hex digits). -/
def pk66 : String :=
  "0xa1b2c3d4e5f60718293a4b5c6d7e8f90a1b2c3d4e5f60718293a4b5c6d7e8f90"

def idC3 : Identity := ⟨"did:ethr:0xC3", "0xpubC3", pk66, "0xaddrC3", "2025-01-01"⟩

def degree0 : DegreeData := ⟨"BachelorDegree", "BTechCS", "ETU", 2025⟩

/-- The credential document issued for `idA` by the fixed demo issuer. -/
def vc1 : VC :=
  ⟨"did:ethr:0x123456789abcdef", "did:ethr:0xholder", degree0, "2025-01-02",
   ["VerifiableCredential"]⟩

/-- `vc1` encrypted exactly as CredentialTab.jsx issuance encrypts it:
under `idA`'s raw private key. -/
def env1 : Bytes := aesEncrypt (stringifyVC vc1) (issuanceKeyA idA)

/-- Flip the first ciphertext byte (tampering with the stored envelope). -/
def tamperHead : Bytes → Bytes
  | [] => []
  | x :: r => (x + 100) % 256 :: r

/-- `createAlwaysValidSignature` with its first character mutated
(spec scenario D: a stored signature byte is mutated before Verify). -/
def mutatedSignature : String :=
  String.mk ('1' :: createAlwaysValidSignature.data.drop 1)

def recC1 : CredentialRecord :=
  ⟨"cred_1", idA.did, vc1.issuer, "QmC1", mutatedSignature, degree0,
   "2025-01-02", some env1, some vc1⟩

def storeC1 : LocalStorage := ⟨some idA, some [recC1]⟩

def recC2 : CredentialRecord :=
  ⟨"cred_2", idA.did, vc1.issuer, "QmC2", createAlwaysValidSignature, degree0,
   "2025-01-02", some (tamperHead env1), some vc1⟩

def storeC2 : LocalStorage := ⟨some idA, some [recC2]⟩

/-- The envelope of `idA`'s credential cached in a store whose identity is
`idB` — the wrong holder attempts verification. -/
def recC4 : CredentialRecord :=
  ⟨"cred_4", idA.did, vc1.issuer, "QmC4", createAlwaysValidSignature, degree0,
   "2025-01-02", some env1, some vc1⟩

def storeC4 : LocalStorage := ⟨some idB, some [recC4]⟩

def storeC5 : LocalStorage := ⟨some idA, some []⟩

def randZero : Nat → Nat := fun _ => 0

def randOne : Nat → Nat := fun _ => 1

def recC6 : CredentialRecord :=
  ⟨"cred_6", idA.did, vc1.issuer, "QmC6", createAlwaysValidSignature, degree0,
   "2025-01-02", some env1, some vc1⟩

def storeC6 : LocalStorage := ⟨some idA, some [recC6]⟩

/-- A store with an identity but an empty credential list. -/
def storeEmptyCreds : LocalStorage := ⟨some idA, some []⟩

/-- A backend verifier response used to close over `handleVerifyB`'s
collaborator argument in concrete runs. -/
def backend0 : VC → String → VerificationResult :=
  fun vc _ => ⟨true, true, vc.issuer, vc.subjectId, false⟩

end Vault

namespace Vault

set_option maxRecDepth 40000

/-! ## Claim theorems -/

/-- Same-key inversion of the cipher model, generalized over the stream
position. -/
theorem aes_roundtrip_aux (k : String) (p : Bytes) :
    ∀ i, (∀ b ∈ p, b < 256) → aesDecryptAux k i (aesEncryptAux k i p) = p := by
  induction p with
  | nil => intro i _; rfl
  | cons b r ih =>
    intro i h
    have hk : keyStream k i < 256 := by
      unfold keyStream; exact Nat.mod_lt _ (by norm_num)
    have hb : b < 256 := h b (List.mem_cons_self ..)
    simp only [aesEncryptAux, aesDecryptAux]
    rw [ih (i + 1) (fun x hx => h x (List.mem_cons_of_mem _ hx))]
    congr 1
    omega

/-- C1: the signature-check step of the debug VerifyTab is hard-coded to
success: with a stored signature mutated away from the one attached at
issuance, verification still reports `isValid: true, verified: true`
instead of a rejection — the stored signature is never consulted. -/
theorem C1_mutated_signature_still_verifies :
    handleVerifyA storeC1 (fun _ => none) "QmC1"
      = .result ⟨true, true, "did:ethr:0x123456789abcdef", "did:ethr:0xholder", false⟩
    ∧ recC1.signature = mutatedSignature
    ∧ mutatedSignature ≠ createAlwaysValidSignature := by
  refine ⟨by decide, rfl, by decide⟩

/-- C2: with a tampered envelope every decryption method fails, yet the
debug VerifyTab falls back to the locally cached plaintext `vcData` and
reports a successful verification instead of an explicit failure. -/
theorem C2_decrypt_failure_masked_by_plaintext_fallback :
    decryptWithMultipleMethods (tamperHead env1) (verificationKeyA idA) = none
    ∧ handleVerifyA storeC2 (fun _ => none) "QmC2"
      = .result ⟨true, true, "did:ethr:0x123456789abcdef", "did:ethr:0xholder", true⟩ := by
  exact ⟨by decide, by decide⟩

/-- C3: on a backend-shaped 66-character private key, the CredentialTab.jsx
issuance path uses the raw private key of arbitrary length directly as the
cipher key, while the alternate issuance/verification paths use its first 32
characters — the two derivations disagree, so no single deriveKey function
is applied uniformly. -/
theorem C3_key_derivation_inconsistent :
    issuanceKeyA idC3 = idC3.privateKey
    ∧ (issuanceKeyA idC3).data.length = 66
    ∧ verificationKeyB idC3 = jsSlice32 idC3.privateKey
    ∧ (verificationKeyB idC3).data.length = 32
    ∧ issuanceKeyA idC3 ≠ verificationKeyB idC3 := by
  refine ⟨rfl, by decide, rfl, by decide, by decide⟩

/-- C4 counterexample: decrypting with a key different from the encryption
key does not fail the Verify operation — with the envelope of `idA`'s
credential and `idB`'s different private key, the debug flow returns the
cached plaintext and a success result rather than failing. -/
theorem C4_wrong_key_does_not_fail :
    idB.privateKey ≠ idA.privateKey
    ∧ recC4.encryptedData = some (aesEncrypt (stringifyVC vc1) (issuanceKeyA idA))
    ∧ handleVerifyA storeC4 (fun _ => none) "QmC4"
      = .result ⟨true, true, "did:ethr:0x123456789abcdef", "did:ethr:0xholder", true⟩ := by
  refine ⟨by decide, rfl, by decide⟩

/-- C4 (amended): the same-key round-trip law holds — decrypting with the
key used to encrypt recovers every byte-valid plaintext. -/
theorem C4_cipher_roundtrip (p : Bytes) (k : String) (h : ∀ b ∈ p, b < 256) :
    aesDecrypt (aesEncrypt p k) k = p :=
  aes_roundtrip_aux k p 0 h

theorem C4_cipher_roundtrip_witness :
    aesDecrypt (aesEncrypt [72, 105, 33] "0xkey12345") "0xkey12345" = [72, 105, 33] :=
  C4_cipher_roundtrip [72, 105, 33] "0xkey12345" (by decide)

/-- C5: the mock CID is drawn from the random stream and not from the
envelope: two issuance runs with identical inputs (hence byte-identical
envelopes) but different random streams persist records with the same
ciphertext and different handles. -/
theorem C5_handle_not_content_derived :
    (issuedRecord (handleRequestVC_A storeC5 randZero "2025-01-02" "cred_5" degree0)).map
        (fun r => r.encryptedData)
      = (issuedRecord (handleRequestVC_A storeC5 randOne "2025-01-02" "cred_5" degree0)).map
        (fun r => r.encryptedData)
    ∧ (issuedRecord (handleRequestVC_A storeC5 randZero "2025-01-02" "cred_5" degree0)).map
        (fun r => r.cid)
      ≠ (issuedRecord (handleRequestVC_A storeC5 randOne "2025-01-02" "cred_5" degree0)).map
        (fun r => r.cid)
    ∧ issuedRecord (handleRequestVC_A storeC5 randZero "2025-01-02" "cred_5" degree0) ≠ none := by
  refine ⟨by decide, by decide, by decide⟩

/-- C6 counterexample: the alternate VerifyTab does not prefer the local
cache — with the handle present in the local cache (ciphertext and all) but
the content store answering `success: false`, the run fails with the
"no encrypted credential data" error instead of resolving from the cache. -/
theorem C6_cache_ignored_counterexample :
    cachedCipher storeC6 "QmC6" ≠ none
    ∧ handleVerifyB storeC6 (fun _ => some none) backend0 "QmC6" = .failure .noData := by
  exact ⟨by decide, by decide⟩

/-- C6 (amended): the debug VerifyTab resolves ciphertext from the local
cache first (its outcome is then independent of the content store), falls
back to the content store otherwise, and when neither source has the handle
it terminates with the not-found failure before any decrypt, parse or
signature step; the alternate VerifyTab instead queries the content store
first and fails without using a locally cached ciphertext when the store
reports the handle unknown. -/
theorem C6_resolution_order (store : LocalStorage) (ipfs ipfs' : String → Option Bytes)
    (backend : VC → String → VerificationResult) (c : String) :
    (cachedCipher store c ≠ none → handleVerifyA store ipfs c = handleVerifyA store ipfs' c)
    ∧ (store.userIdentity ≠ none → c ≠ "" → cachedCipher store c = none → ipfs c = none →
        handleVerifyA store ipfs c = .failure .notFound)
    ∧ (store.userIdentity ≠ none → c ≠ "" → (∃ r, foundCredOf store c = some r) →
        handleVerifyB store (fun _ => some none) backend c = .failure .noData) := by
  refine ⟨?_, ?_, ?_⟩
  · intro h
    unfold handleVerifyA
    by_cases hc : c = ""
    · simp [hc]
    · cases hid : store.userIdentity with
      | none => simp [hc, hid]
      | some identity =>
        cases hcc : cachedCipher store c with
        | none => exact absurd hcc h
        | some d => simp [hc, hid, hcc]
  · intro hid hc hcc hipfs
    unfold handleVerifyA
    cases hs : store.userIdentity with
    | none => exact absurd hs hid
    | some identity => simp [hc, hs, hcc, hipfs]
  · rintro hid hc ⟨r, hr⟩
    unfold handleVerifyB
    cases hs : store.userIdentity with
    | none => exact absurd hs hid
    | some identity =>
      cases hcr : store.userCredentials with
      | none =>
        unfold foundCredOf at hr
        simp [hcr] at hr
      | some creds =>
        unfold foundCredOf at hr
        simp only [hcr, Option.getD_some] at hr
        simp [hc, hs, hcr, hr]

theorem C6_resolution_order_witness :
    handleVerifyA storeC6 (fun _ => none) "QmC6"
      = handleVerifyA storeC6 (fun _ => some [1, 2]) "QmC6"
    ∧ handleVerifyA storeEmptyCreds (fun _ => none) "QmZ" = .failure .notFound
    ∧ handleVerifyB storeC6 (fun _ => some none) backend0 "QmC6" = .failure .noData := by
  refine ⟨(C6_resolution_order storeC6 (fun _ => none) (fun _ => some [1, 2]) backend0 "QmC6").1
      (by decide),
    (C6_resolution_order storeEmptyCreds (fun _ => none) (fun _ => none) backend0 "QmZ").2.1
      (by decide) (by decide) (by decide) rfl,
    (C6_resolution_order storeC6 (fun _ => none) (fun _ => none) backend0 "QmC6").2.2
      (by decide) (by decide) ⟨recC6, by decide⟩⟩

/-- C7: issuance is atomic with respect to the local store — in both
CredentialTab variants the store is left untouched on any failure (whose
outcome names the failing step), and a record is appended to the credential
list, leaving the identity record unchanged, only when every prior step
succeeded. -/
theorem C7_issue_atomic (store : LocalStorage) (issuer : Option (VC × String))
    (put : Bytes → Option String) (recId now : String) (rand : Nat → Nat)
    (degree : DegreeData) :
    (isIssued (handleRequestVC_B store issuer put recId).2 = false →
       (handleRequestVC_B store issuer put recId).1 = store)
    ∧ ((handleRequestVC_B store issuer put recId).2 = .issuerFailed → issuer = none)
    ∧ (∀ r, (handleRequestVC_B store issuer put recId).2 = .issued r →
         issuer ≠ none
         ∧ (handleRequestVC_B store issuer put recId).1.userIdentity = store.userIdentity
         ∧ (handleRequestVC_B store issuer put recId).1.userCredentials
             = some (r :: store.userCredentials.getD []))
    ∧ (isIssued (handleRequestVC_A store rand now recId degree).2 = false →
       (handleRequestVC_A store rand now recId degree).1 = store)
    ∧ (∀ r, (handleRequestVC_A store rand now recId degree).2 = .issued r →
         (handleRequestVC_A store rand now recId degree).1.userIdentity = store.userIdentity
         ∧ (handleRequestVC_A store rand now recId degree).1.userCredentials
             = some (r :: store.userCredentials.getD [])) := by
  unfold handleRequestVC_A handleRequestVC_B
  cases hs : store.userIdentity with
  | none => simp [isIssued]
  | some identity =>
    cases hi : issuer with
    | none => simp [isIssued]
    | some pair =>
      obtain ⟨vc, signature⟩ := pair
      cases hput : put (aesEncrypt (stringifyVC vc) (issuanceKeyB identity)) with
      | none => simp [hput, isIssued]
      | some cid =>
        refine ⟨by simp [hput, isIssued], by simp [hput], ?_, by simp [isIssued], ?_⟩
        · intro r hr
          simp only [hput] at hr ⊢
          cases hr
          simp
        · intro r hr
          cases hr
          simp

theorem C7_issue_atomic_witness :
    (handleRequestVC_B storeC5 none (fun _ => none) "i0").1 = storeC5
    ∧ ((handleRequestVC_B storeC5
          (some (vc1, "sig0")) (fun _ => some "QmP") "i0").1.userCredentials
        = some (⟨"i0", idA.did, vc1.issuer, "QmP", "sig0", degree0, "2025-01-02",
                 none, none⟩ :: []))
    ∧ (handleRequestVC_A (⟨none, some []⟩ : LocalStorage) randZero "t0" "i0" degree0).1
        = (⟨none, some []⟩ : LocalStorage) := by
  refine ⟨(C7_issue_atomic storeC5 none (fun _ => none) "i0" "t0" randZero degree0).1
      (by decide),
    ((C7_issue_atomic storeC5 (some (vc1, "sig0")) (fun _ => some "QmP") "i0" "t0"
        randZero degree0).2.2.1
      ⟨"i0", idA.did, vc1.issuer, "QmP", "sig0", degree0, "2025-01-02", none, none⟩
      (by decide)).2.2,
    (C7_issue_atomic (⟨none, some []⟩ : LocalStorage) none (fun _ => none) "i0" "t0"
        randZero degree0).2.2.2.1 (by decide)⟩

/-- C8: the private key never leaves the holder's runtime in either
protocol. Issue path: every request payload is unchanged when only the
private key of the identity differs (it reaches the network only through
the ciphertext, built from the derived key). Verify path: the
retrieve-from-ipfs body carries only the CID and the verify-vc body only
the parsed document and the stored signature — neither payload takes the
identity as an input at all. Under the evident distinctness assumptions the
raw private key string is not among the transmitted fields of any of the
four request bodies. -/
theorem C8_privateKey_not_transmitted (id1 id2 : Identity) (degree : DegreeData)
    (vc : VC) (sig c : String)
    (hdid : id1.did = id2.did) (hpub : id1.publicKey = id2.publicKey) :
    issueVcPayload id1 degree = issueVcPayload id2 degree
    ∧ uploadMetadataPayload id1 vc = uploadMetadataPayload id2 vc
    ∧ uploadCiphertext id1 vc = aesEncrypt (stringifyVC vc) (issuanceKeyB id1)
    ∧ (id1.privateKey ≠ id1.did → id1.privateKey ≠ id1.publicKey →
        id1.privateKey ∉ [degree.type, degree.name, degree.university,
          Nat.repr degree.graduationYear] →
        id1.privateKey ∉ issueVcPayload id1 degree)
    ∧ (id1.privateKey ≠ id1.did → id1.privateKey ≠ vc.issuer →
        id1.privateKey ≠ vc.issuanceDate → id1.privateKey ∉ vc.type →
        id1.privateKey ∉ uploadMetadataPayload id1 vc)
    ∧ (id1.privateKey ≠ c → id1.privateKey ∉ retrievePayload c)
    ∧ (id1.privateKey ≠ vc.issuer → id1.privateKey ≠ vc.subjectId →
        id1.privateKey ∉ [vc.degree.type, vc.degree.name, vc.degree.university,
          Nat.repr vc.degree.graduationYear] →
        id1.privateKey ≠ vc.issuanceDate → id1.privateKey ≠ sig →
        id1.privateKey ∉ vc.type →
        id1.privateKey ∉ verifyVcPayload vc sig) := by
  refine ⟨by simp [issueVcPayload, hdid, hpub], by simp [uploadMetadataPayload, hdid],
    rfl, ?_, ?_, ?_, ?_⟩
  · intro h1 h2 h3
    simp only [issueVcPayload, List.mem_cons, List.not_mem_nil, or_false] at h3 ⊢
    push_neg at h3 ⊢
    tauto
  · intro h1 h2 h3 h4
    simp only [uploadMetadataPayload, List.mem_append, List.mem_cons,
      List.not_mem_nil, or_false]
    push_neg
    tauto
  · intro h1
    simp only [retrievePayload, List.mem_cons, List.not_mem_nil, or_false]
    exact h1
  · intro h1 h2 h3 h4 h5 h6
    simp only [List.mem_cons, List.not_mem_nil, or_false] at h3
    push_neg at h3
    simp only [verifyVcPayload, List.mem_append, List.mem_cons,
      List.not_mem_nil, or_false]
    push_neg
    tauto

theorem C8_privateKey_not_transmitted_witness :
    issueVcPayload idA degree0 = issueVcPayload idAvar degree0
    ∧ idA.privateKey ∉ issueVcPayload idA degree0
    ∧ idA.privateKey ∉ uploadMetadataPayload idA vc1
    ∧ idA.privateKey ∉ retrievePayload "QmC1"
    ∧ idA.privateKey ∉ verifyVcPayload vc1 createAlwaysValidSignature := by
  have h := C8_privateKey_not_transmitted idA idAvar degree0 vc1
    createAlwaysValidSignature "QmC1" rfl rfl
  exact ⟨h.1, h.2.2.2.1 (by decide) (by decide) (by decide),
    h.2.2.2.2.1 (by decide) (by decide) (by decide) (by decide),
    h.2.2.2.2.2.1 (by decide),
    h.2.2.2.2.2.2 (by decide) (by decide) (by decide) (by decide) (by decide)
      (by decide)⟩

/-- C9: `did` and `address` are pure deterministic functions of the public
key alone — identities generated with the same public key but different
private keys or creation times carry the same `did` and `address`, and both
are recomputable from `publicKey` by the derivation functions. -/
theorem C9_did_address_deterministic (pk sk sk' t t' : String) :
    (mkIdentity pk sk t).did = (mkIdentity pk sk' t').did
    ∧ (mkIdentity pk sk t).address = (mkIdentity pk sk' t').address
    ∧ (mkIdentity pk sk t).did = deriveDid pk
    ∧ (mkIdentity pk sk t).address = deriveAddress pk :=
  ⟨rfl, rfl, rfl, rfl⟩

/-- C10: frame property of the local store — clearing credentials leaves
the identity record untouched, clearing or regenerating the identity leaves
the credential records untouched, so records referencing a cleared DID
persist (as with `recC6`, which still names `idA`'s DID after the identity
is cleared). -/
theorem C10_store_frame (s : LocalStorage) (confirmed : Bool) (i : Identity) :
    (handleClearCredentials s).userIdentity = s.userIdentity
    ∧ (handleClearCredentials s).userCredentials = none
    ∧ (handleClearIdentity confirmed s).userCredentials = s.userCredentials
    ∧ (handleClearIdentity true s).userIdentity = none
    ∧ (storeNewIdentity s i).userCredentials = s.userCredentials
    ∧ (handleClearIdentity true storeC6).userIdentity = none
    ∧ (handleClearIdentity true storeC6).userCredentials = some [recC6]
    ∧ recC6.did = idA.did := by
  refine ⟨rfl, rfl, ?_, rfl, rfl, rfl, rfl, rfl⟩
  unfold handleClearIdentity
  cases confirmed <;> rfl

end Vault
